import Mathlib

/-!
Shallow embedding of the playpose-game playlist API (src/server.py and
src/netlify/functions/playlists.py).

Python dictionaries coming from the upstream catalog client are embedded as
structures with `Option String` fields (`none` models a missing key, so that
`d.get(k)` is the field itself and `d.get(k, v)` is `(field).getD v`).
Exceptions are `Except String`: `.error msg` is a raised exception whose
`str(e)` is `msg`.  The upstream client (ytmusicapi) is abstracted as a record
of response oracles; the client handle is a `Nat` so distinct construction
results are distinguishable.
-/

namespace PlayPose

/-- Python truthiness of a string-or-None value: `None` and `""` are falsy. -/
def pyTruthy : Option String → Bool
  | none => false
  | some s => !(s == "")

/-- Python `str(x)` for a string-or-None value (used in f-string URLs). -/
def pyStr : Option String → String
  | none => "None"
  | some s => s

/-- Python `s.lower()`, modelled characterwise (ASCII case mapping, which
covers every string this system compares). -/
def pyLower (s : String) : String :=
  ⟨s.data.map Char.toLower⟩

/-- `needle` occurs at the start of `hay` (helper for the Python `in` test). -/
def charsPrefix : List Char → List Char → Bool
  | [], _ => true
  | _ :: _, [] => false
  | a :: as, b :: bs => a == b && charsPrefix as bs

/-- `needle` occurs somewhere in `hay` (substring search on char lists). -/
def charsSub (n : List Char) : List Char → Bool
  | [] => n.isEmpty
  | b :: bs => charsPrefix n (b :: bs) || charsSub n bs

/-- Python `needle in hay` on strings: substring containment. -/
def pyIn (needle hay : String) : Bool :=
  charsSub needle.data hay.data

/-- A mood/category item from the taxonomy: a dict with optional
`title` and `params` keys. -/
structure MoodItem where
  title : Option String
  params : Option String
deriving DecidableEq, Repr

/-- The mood taxonomy: the ordered dict returned by `get_mood_categories`,
category name to list of items. -/
abbrev Taxonomy := List (String × List MoodItem)

/-- A thumbnail descriptor dict with an optional `url` key. -/
structure Thumb where
  url : Option String
deriving DecidableEq, Repr

/-- A raw playlist record from the upstream service. -/
structure RawPlaylist where
  playlistId : Option String
  title : Option String
  description : Option String
  thumbnails : List Thumb
deriving DecidableEq, Repr

/-- A playlist group from `get_mood_playlists`: a dict with a `playlists`
key (possibly empty) which may itself carry playlist fields; `hasIdKey`
models the Python membership test `"playlistId" in playlist_group`. -/
structure PlaylistGroup where
  playlists : List RawPlaylist
  hasIdKey : Bool
  selfRecord : RawPlaylist
deriving DecidableEq, Repr

/-- A raw search result record from `yt.search`. -/
structure SearchItem where
  resultType : Option String
  playlistId : Option String
  title : Option String
  description : Option String
  thumbnails : List Thumb
deriving DecidableEq, Repr

/-- The `PlaylistSummary` dict both implementations build.  The dev server
always fills `id` and `title` with strings; the serverless function copies
the optional upstream values through, so the fields are `Option String`. -/
structure PlaylistSummary where
  id : Option String
  title : Option String
  description : String
  thumbnail : Option String
  url : String
deriving DecidableEq, Repr

/-- A flattened `{title, params}` pair from `get_available_moods`. -/
structure MoodPair where
  title : Option String
  params : Option String
deriving DecidableEq, Repr

/-- A value returned by an adapter operation: a playlist list, a flattened
moods list, or the `{"error": msg}` dict. -/
inductive ApiValue where
  | playlists : List PlaylistSummary → ApiValue
  | moodsList : List MoodPair → ApiValue
  | errorMsg : String → ApiValue
deriving DecidableEq, Repr

/-- The upstream catalog client, abstracted as response oracles; `.error`
models the call raising an exception. -/
structure Upstream where
  moodCategories : Except String Taxonomy
  moodPlaylists : String → Except String (List PlaylistGroup)
  searchResults : String → Int → Except String (List SearchItem)

/-- `MOOD_CATEGORIES`: the static keyword table (identical in both files). -/
def MOOD_CATEGORIES : List (String × String) :=
  [("workout", "Workout"), ("energize", "Energize"), ("party", "Party"),
   ("chill", "Chill"), ("focus", "Focus"), ("romance", "Romance"),
   ("sad", "Sad"), ("sleep", "Sleep"), ("kids", "Kids"),
   ("commute", "Commute")]

/-- `MOOD_CATEGORIES.get(mood.lower(), mood)`: resolve the keyword to a
label, falling back to the raw keyword. -/
def moodLookup (mood : String) : String :=
  match MOOD_CATEGORIES.find? (fun kv => kv.1 == pyLower mood) with
  | some kv => kv.2
  | none => mood

/-- `get_best_thumbnail` (identical in both files): `None` on an empty list,
else `thumbnails[-1].get("url")`. -/
def get_best_thumbnail (thumbnails : List Thumb) : Option String :=
  if thumbnails.isEmpty then none
  else
    match thumbnails.getLast? with
    | some t => t.url
    | none => none

/-- The spec's validity predicate on a summary `id`: a non-empty string that
is not case-insensitively "none" or "null". -/
def validId : Option String → Bool
  | none => false
  | some s => !(s == "") && !(pyLower s == "none") && !(pyLower s == "null")

/-- Python `int(s)` on the textual query parameter, modelled as: strip
leading/trailing whitespace, optional sign, one or more decimal digits;
anything else raises (is `none`). -/
def digitsVal (cs : List Char) : Option Nat :=
  if cs.isEmpty || !(cs.all (·.isDigit)) then none
  else some (cs.foldl (fun a c => a * 10 + (c.toNat - 48)) 0)

/-- Parse an integer the way `int(str)` does (sign and surrounding
whitespace allowed). -/
def pyParseInt (s : String) : Option Int :=
  let cs := ((s.data.dropWhile (·.isWhitespace)).reverse.dropWhile
    (·.isWhitespace)).reverse
  match cs with
  | '-' :: rest => (digitsVal rest).map (fun n => -(n : Int))
  | '+' :: rest => (digitsVal rest).map (fun n => (n : Int))
  | rest => (digitsVal rest).map (fun n => (n : Int))

/-- `min(50, max(1, int(raw)))` with `except: limit = 10` (identical in
both routers). -/
def clampLimit (raw : String) : Int :=
  match pyParseInt raw with
  | some n => min 50 (max 1 n)
  | none => 10

/-- The effective limit for a request: the `limit` query parameter defaults
to the string "10" before parsing. -/
def effLimit (limitParam : Option String) : Int :=
  clampLimit (limitParam.getD "10")

/-! ## Client handle construction (`get_ytmusic`) -/

/-- `get_ytmusic` in the netlify function, one call: given the memoized
global `ytmusic` and the outcome `YTMusic()` would have (if invoked),
return (result, new memo, construction attempts made: 0 or 1).  A raised
constructor propagates (`.error`) and leaves the memo unset. -/
def netlify_get_ytmusic (memo : Option Nat) (ctor : Except String Nat) :
    Except String Nat × Option Nat × Nat :=
  match memo with
  | some h => (.ok h, some h, 0)
  | none =>
    match ctor with
    | .ok h => (.ok h, some h, 1)
    | .error m => (.error m, none, 1)

/-- A sequence of `get_ytmusic` calls: state is (memo, attempts so far);
the `ctor` stream gives the outcome of the i-th construction attempt. -/
def get_ytmusic_run (ctor : Nat → Except String Nat) :
    Nat → Option Nat × Nat → Option Nat × Nat
  | 0, st => st
  | k + 1, st =>
    let r := netlify_get_ytmusic st.1 (ctor st.2)
    get_ytmusic_run ctor k (r.2.1, st.2 + r.2.2)

/-- `get_ytmusic` in the dev server: construction is additionally guarded by
`YTMUSIC_AVAILABLE`; when the library is unavailable the call returns
`None` (here `.ok none`) without constructing. -/
def server_get_ytmusic (available : Bool) (memo : Option Nat)
    (ctor : Except String Nat) :
    Except String (Option Nat) × Option Nat × Nat :=
  match memo with
  | some h => (.ok (some h), some h, 0)
  | none =>
    if available then
      match ctor with
      | .ok h => (.ok (some h), some h, 1)
      | .error m => (.error m, none, 1)
    else (.ok none, none, 0)

/-! ## Mood matching (browse) -/

/-- The dev server's match test (`server.py` line 64): `target` is already
lowercased; match when either string contains the other. -/
def server_item_matches (target : String) (i : MoodItem) : Bool :=
  pyIn target (pyLower (i.title.getD "")) || pyIn (pyLower (i.title.getD "")) target

/-- The netlify function's match test (`playlists.py` line 52): only
`target_mood.lower() in item.get("title", "").lower()`. -/
def netlify_item_matches (target : String) (i : MoodItem) : Bool :=
  pyIn (pyLower target) (pyLower (i.title.getD ""))

/-- First matching item of a category (`server.py` inner loop with break). -/
def firstMatch (target : String) (items : List MoodItem) : Option MoodItem :=
  items.find? (server_item_matches target)

/-- The dev server's category scan: per category take the first matching
item's `params`; break out of the outer loop only when that value is
truthy, otherwise keep it as the running `matched_params` and continue. -/
def server_match_loop (target : String) (acc : Option String) :
    Taxonomy → Option String
  | [] => acc
  | (_, items) :: rest =>
    match firstMatch target items with
    | none => server_match_loop target acc rest
    | some i =>
      if pyTruthy i.params then i.params
      else server_match_loop target i.params rest

/-- The dev server's fallback (`server.py` lines 71-76): when
`matched_params` is falsy and the taxonomy is non-empty, take the first
item of the *first* category — but only if that category is non-empty. -/
def server_fallback (tax : Taxonomy) (mp : Option String) : Option String :=
  if pyTruthy mp then mp
  else
    match tax with
    | [] => mp
    | (_, items) :: _ =>
      match items with
      | [] => mp
      | i :: _ => i.params

/-! ## Dev server browse collection -/

/-- `server.py` lines 84-89: a group's playlists come from its `playlists`
key; when that is empty and the group dict itself has a `playlistId` key,
the group record is treated as a single playlist. -/
def server_group_playlists (g : PlaylistGroup) : List RawPlaylist :=
  if g.playlists.isEmpty && g.hasIdKey then [g.selfRecord] else g.playlists

/-- The summary the dev server browse path appends (`server.py` 98-104),
given the validated id string. -/
def server_mk_browse_summary (pid : String) (p : RawPlaylist) : PlaylistSummary :=
  { id := some pid
    title := some (p.title.getD "Unknown")
    description := p.description.getD ""
    thumbnail := get_best_thumbnail p.thumbnails
    url := "https://www.youtube.com/playlist?list=" ++ pid }

/-- The dev server browse skip test (`server.py` 95-96):
`not playlist_id or playlist_id == "None" or str(playlist_id).lower() in
("none", "null")`. -/
def server_skip_pid : Option String → Bool
  | none => true
  | some s =>
    s == "" || s == "None" || pyLower s == "none" || pyLower s == "null"

/-- The dev server's per-playlist loop (`server.py` 91-104): break once
`limit` summaries are collected, skip missing/placeholder ids; in the
append branch the id is the (necessarily present) string value. -/
def server_collect_items (limit : Nat) (acc : List PlaylistSummary) :
    List RawPlaylist → List PlaylistSummary
  | [] => acc
  | p :: rest =>
    if limit ≤ acc.length then acc
    else if server_skip_pid p.playlistId then
      server_collect_items limit acc rest
    else
      server_collect_items limit
        (acc ++ [server_mk_browse_summary (pyStr p.playlistId) p]) rest

/-- The dev server's loop over playlist groups. -/
def server_collect_groups (limit : Nat) (acc : List PlaylistSummary) :
    List PlaylistGroup → List PlaylistSummary
  | [] => acc
  | g :: rest =>
    server_collect_groups limit
      (server_collect_items limit acc (server_group_playlists g)) rest

/-- `server.py` 78-106: fetch and collect when `matched_params` is truthy,
otherwise the accumulator stays empty. -/
def server_browse_fetch (up : Upstream) (limit : Nat) (mp : Option String) :
    Except String (List PlaylistSummary) :=
  if pyTruthy mp then
    match up.moodPlaylists (mp.getD "") with
    | .error m => .error m
    | .ok gs => .ok (server_collect_groups limit [] gs)
  else .ok []

/-- The body of the dev server's `fetch_mood_playlists` try-block
(`server.py` 50-106): `.error` is an exception inside the try. -/
def server_browse_body (up : Upstream) (mood : String) (limit : Nat) :
    Except String (List PlaylistSummary) :=
  match up.moodCategories with
  | .error m => .error m
  | .ok tax =>
    server_browse_fetch up limit
      (server_fallback tax
        (server_match_loop (pyLower (moodLookup mood)) none tax))

/-! ## Netlify browse collection -/

/-- The summary the netlify browse path appends (`playlists.py` 58-65):
no id validation, optional fields copied through, URL interpolates the
possibly-missing id. -/
def netlify_mk_browse_summary (p : RawPlaylist) : PlaylistSummary :=
  { id := p.playlistId
    title := p.title
    description := p.description.getD ""
    thumbnail := get_best_thumbnail p.thumbnails
    url := "https://music.youtube.com/playlist?list=" ++ pyStr p.playlistId }

/-- The netlify per-playlist loop (`playlists.py` 56-65): break at `limit`,
append unconditionally. -/
def netlify_collect_items (limit : Nat) (acc : List PlaylistSummary) :
    List RawPlaylist → List PlaylistSummary
  | [] => acc
  | p :: rest =>
    if limit ≤ acc.length then acc
    else netlify_collect_items limit (acc ++ [netlify_mk_browse_summary p]) rest

/-- The netlify loop over playlist groups: only the `playlists` key is
consulted (no single-playlist group shape handling). -/
def netlify_collect_groups (limit : Nat) (acc : List PlaylistSummary) :
    List PlaylistGroup → List PlaylistSummary
  | [] => acc
  | g :: rest =>
    netlify_collect_groups limit (netlify_collect_items limit acc g.playlists) rest

/-- The netlify inner item loop (`playlists.py` 51-65): every matching item
triggers its own `get_mood_playlists` fetch (no break); `item["params"]`
raises a KeyError when the key is missing. -/
def netlify_browse_items (up : Upstream) (target : String) (limit : Nat)
    (acc : List PlaylistSummary) : List MoodItem →
    Except String (List PlaylistSummary)
  | [] => .ok acc
  | i :: rest =>
    if netlify_item_matches target i then
      match i.params with
      | none => .error "KeyError: params"
      | some ps =>
        match up.moodPlaylists ps with
        | .error m => .error m
        | .ok gs =>
          netlify_browse_items up target limit
            (netlify_collect_groups limit acc gs) rest
    else netlify_browse_items up target limit acc rest

/-- The netlify loop over taxonomy categories. -/
def netlify_browse_cats (up : Upstream) (target : String) (limit : Nat)
    (acc : List PlaylistSummary) : Taxonomy →
    Except String (List PlaylistSummary)
  | [] => .ok acc
  | (_, items) :: rest =>
    match netlify_browse_items up target limit acc items with
    | .error m => .error m
    | .ok acc2 => netlify_browse_cats up target limit acc2 rest

/-- The body of the netlify `fetch_mood_playlists` try-block
(`playlists.py` 41-68). -/
def netlify_browse_body (up : Upstream) (mood : String) (limit : Nat) :
    Except String (List PlaylistSummary) :=
  match up.moodCategories with
  | .error m => .error m
  | .ok tax => netlify_browse_cats up (moodLookup mood) limit [] tax

/-! ## Search mapping -/

/-- The summary the dev server search path appends (`server.py` 126-132). -/
def server_mk_search_summary (pid : String) (it : SearchItem) : PlaylistSummary :=
  { id := some pid
    title := some (it.title.getD "Unknown")
    description := it.description.getD ""
    thumbnail := get_best_thumbnail it.thumbnails
    url := "https://www.youtube.com/playlist?list=" ++ pid }

/-- The dev server search skip test (`server.py` 123-124):
`not playlist_id or str(playlist_id).lower() in ("none", "null")`. -/
def search_skip_pid : Option String → Bool
  | none => true
  | some s => s == "" || pyLower s == "none" || pyLower s == "null"

/-- The dev server search mapping (`server.py` 120-132): keep only
`resultType == "playlist"` records, skip missing/placeholder ids; note
there is no truncation of the mapped list. -/
def server_search_map : List SearchItem → List PlaylistSummary
  | [] => []
  | it :: rest =>
    if it.resultType == some "playlist" then
      if search_skip_pid it.playlistId then server_search_map rest
      else server_mk_search_summary (pyStr it.playlistId) it :: server_search_map rest
    else server_search_map rest

/-- The summary the netlify search path appends (`playlists.py` 83-89). -/
def netlify_mk_search_summary (it : SearchItem) : PlaylistSummary :=
  { id := it.playlistId
    title := it.title
    description := it.description.getD ""
    thumbnail := get_best_thumbnail it.thumbnails
    url := "https://www.youtube.com/playlist?list=" ++ pyStr it.playlistId }

/-- The netlify search mapping (`playlists.py` 81-89): `resultType` filter
only, no id validation, no truncation. -/
def netlify_search_map : List SearchItem → List PlaylistSummary
  | [] => []
  | it :: rest =>
    if it.resultType == some "playlist" then
      netlify_mk_search_summary it :: netlify_search_map rest
    else netlify_search_map rest

/-- `get_available_moods` flattening (identical in both files). -/
def moods_flatten (tax : Taxonomy) : List MoodPair :=
  tax.flatMap (fun c => c.2.map (fun i => { title := i.title, params := i.params }))

/-! ## Full adapter operations

Each operation threads the memoized handle and the constructor outcome
through `get_ytmusic`; the outer `Except` is an exception escaping the
operation (possible because `get_ytmusic()` is called before the `try`). -/

/-- Netlify `fetch_mood_playlists` (`playlists.py` 37-70). -/
def netlify_fetch_mood_playlists (memo : Option Nat) (ctor : Except String Nat)
    (up : Upstream) (mood : String) (limit : Nat) : Except String ApiValue :=
  match netlify_get_ytmusic memo ctor with
  | (.error m, _, _) => .error m
  | (.ok _, _, _) =>
    match netlify_browse_body up mood limit with
    | .ok l => .ok (.playlists l)
    | .error m => .ok (.errorMsg m)

/-- Netlify `search_playlists` (`playlists.py` 73-94). -/
def netlify_search_playlists (memo : Option Nat) (ctor : Except String Nat)
    (up : Upstream) (q : String) (limit : Int) : Except String ApiValue :=
  match netlify_get_ytmusic memo ctor with
  | (.error m, _, _) => .error m
  | (.ok _, _, _) =>
    match up.searchResults q limit with
    | .error m => .ok (.errorMsg m)
    | .ok results => .ok (.playlists (netlify_search_map results))

/-- Netlify `get_available_moods` (`playlists.py` 104-122). -/
def netlify_get_available_moods (memo : Option Nat) (ctor : Except String Nat)
    (up : Upstream) : Except String ApiValue :=
  match netlify_get_ytmusic memo ctor with
  | (.error m, _, _) => .error m
  | (.ok _, _, _) =>
    match up.moodCategories with
    | .error m => .ok (.errorMsg m)
    | .ok tax => .ok (.moodsList (moods_flatten tax))

/-- Dev server `fetch_mood_playlists` (`server.py` 44-112); the second
component counts client construction attempts. -/
def server_fetch_mood_playlists (available : Bool) (memo : Option Nat)
    (ctor : Except String Nat) (up : Upstream) (mood : String) (limit : Nat) :
    Except String ApiValue × Nat :=
  match server_get_ytmusic available memo ctor with
  | (.error m, _, a) => (.error m, a)
  | (.ok none, _, a) => (.ok (.errorMsg "ytmusicapi not available"), a)
  | (.ok (some _), _, a) =>
    (match server_browse_body up mood limit with
     | .ok l => .ok (.playlists l)
     | .error m => .ok (.errorMsg m), a)

/-- Dev server `search_playlists` (`server.py` 115-140). -/
def server_search_playlists (available : Bool) (memo : Option Nat)
    (ctor : Except String Nat) (up : Upstream) (q : String) (limit : Int) :
    Except String ApiValue × Nat :=
  match server_get_ytmusic available memo ctor with
  | (.error m, _, a) => (.error m, a)
  | (.ok none, _, a) => (.ok (.errorMsg "ytmusicapi not available"), a)
  | (.ok (some _), _, a) =>
    (match up.searchResults q limit with
     | .error m => .ok (.errorMsg m)
     | .ok results => .ok (.playlists (server_search_map results)), a)

/-- Dev server `get_available_moods` (`server.py` 150-170). -/
def server_get_available_moods (available : Bool) (memo : Option Nat)
    (ctor : Except String Nat) (up : Upstream) : Except String ApiValue × Nat :=
  match server_get_ytmusic available memo ctor with
  | (.error m, _, a) => (.error m, a)
  | (.ok none, _, a) => (.ok (.errorMsg "ytmusicapi not available"), a)
  | (.ok (some _), _, a) =>
    (match up.moodCategories with
     | .error m => .ok (.errorMsg m)
     | .ok tax => .ok (.moodsList (moods_flatten tax)), a)

/-! ## Request routers

The routers dispatch to the three adapter operations.  To make "the
adapter was not invoked" provable, the adapter is abstracted as an oracle
from calls to values, and the router also returns the list of calls it
made.  `params` abstracts the query-string lookup: `none` is a missing
parameter. -/

/-- An adapter invocation made by a router. -/
inductive AdapterCall where
  | moodsCall : AdapterCall
  | browseCall : String → Int → AdapterCall
  | searchCall : String → Int → AdapterCall
deriving DecidableEq, Repr

/-- The `result` dict a router builds before serialization. -/
inductive RouteResult where
  | moodsWrap : ApiValue → RouteResult
  | playlistsWrap : ApiValue → RouteResult
  | errorTop : String → RouteResult
deriving DecidableEq, Repr

/-- The netlify handler's routing (`playlists.py` 125-156). -/
def netlify_route (params : String → Option String)
    (oracle : AdapterCall → ApiValue) : RouteResult × List AdapterCall :=
  let action := (params "action").getD "moods"
  let limit := effLimit (params "limit")
  if action == "moods" then
    (.moodsWrap (oracle .moodsCall), [.moodsCall])
  else if action == "browse" then
    let mood := (params "mood").getD "party"
    (.playlistsWrap (oracle (.browseCall mood limit)), [.browseCall mood limit])
  else if action == "search" then
    let q := (params "q").getD ""
    if q == "" then (.errorTop "Missing 'q' parameter for search", [])
    else (.playlistsWrap (oracle (.searchCall q limit)), [.searchCall q limit])
  else (.errorTop ("Unknown action: " ++ action), [])

/-- The dev server's `handle_api` routing (`server.py` 186-212); `parse_qs`
value lists are abstracted to the same option-valued lookup (`parse_qs`
never yields an empty string, but both routers treat a missing and an
empty `q` alike). -/
def server_route (params : String → Option String)
    (oracle : AdapterCall → ApiValue) : RouteResult × List AdapterCall :=
  let action := (params "action").getD "moods"
  let limit := effLimit (params "limit")
  if action == "moods" then
    (.moodsWrap (oracle .moodsCall), [.moodsCall])
  else if action == "browse" then
    let mood := (params "mood").getD "party"
    (.playlistsWrap (oracle (.browseCall mood limit)), [.browseCall mood limit])
  else if action == "search" then
    let q := (params "q").getD ""
    if q == "" then (.errorTop "Missing 'q' parameter for search", [])
    else (.playlistsWrap (oracle (.searchCall q limit)), [.searchCall q limit])
  else (.errorTop ("Unknown action: " ++ action), [])

/-! ## Theorems -/

/-- C9: the thumbnail selector returns null on an empty sequence and the
URL of the last element on a non-empty one (both implementations define
`get_best_thumbnail` identically). -/
theorem C9_thumbnail_last :
    get_best_thumbnail [] = none ∧
    ∀ (ts : List Thumb) (h : ts ≠ []),
      get_best_thumbnail ts = (ts.getLast h).url := by
  refine ⟨rfl, ?_⟩
  intro ts h
  have he : ts.isEmpty = false := by
    cases ts with
    | nil => exact absurd rfl h
    | cons a l => rfl
  simp [get_best_thumbnail, he, List.getLast?_eq_getLast ts h]

/-- Witness for C9 at a concrete two-element sequence. -/
theorem C9_thumbnail_last_witness :
    get_best_thumbnail [⟨some "lo"⟩, ⟨some "hi"⟩] = some "hi" :=
  (C9_thumbnail_last.2 [⟨some "lo"⟩, ⟨some "hi"⟩] (by simp)).trans rfl

/-- C6: for every `limit` query parameter the effective limit is in
`[1, 50]`; values that parse as integers are clamped to the nearest
bound, parse failures and a missing parameter give the default 10. -/
theorem C6_limit_clamped :
    (∀ p : Option String, 1 ≤ effLimit p ∧ effLimit p ≤ 50) ∧
    (∀ (s : String) (n : Int),
      pyParseInt s = some n → clampLimit s = min 50 (max 1 n)) ∧
    (∀ s : String, pyParseInt s = none → clampLimit s = 10) ∧
    effLimit none = 10 := by
  refine ⟨?_, ?_, ?_, rfl⟩
  · intro p
    unfold effLimit clampLimit
    cases pyParseInt ((p.getD "10")) with
    | none => exact ⟨by norm_num, by norm_num⟩
    | some n =>
      constructor
      · show (1 : Int) ≤ min 50 (max 1 n)
        omega
      · show min 50 (max 1 n) ≤ (50 : Int)
        omega
  · intro s n hp
    unfold clampLimit
    rw [hp]
  · intro s hp
    unfold clampLimit
    rw [hp]

/-- Witness for C6: an oversized, an undersized, and a non-numeric value. -/
theorem C6_limit_clamped_witness :
    clampLimit "999" = 50 ∧ clampLimit "-3" = 1 ∧ clampLimit "abc" = 10 :=
  ⟨(C6_limit_clamped.2.1 "999" 999 rfl).trans (by decide),
   (C6_limit_clamped.2.1 "-3" (-3) rfl).trans (by decide),
   C6_limit_clamped.2.2.1 "abc" rfl⟩

/-- C7: with `action=search` and a missing or empty `q`, both routers
return exactly the missing-q error and make no adapter call (so no client
construction and no network call occurs). -/
theorem C7_search_missing_q (params : String → Option String)
    (oracle : AdapterCall → ApiValue)
    (ha : params "action" = some "search")
    (hq : params "q" = none ∨ params "q" = some "") :
    netlify_route params oracle =
      (.errorTop "Missing 'q' parameter for search", []) ∧
    server_route params oracle =
      (.errorTop "Missing 'q' parameter for search", []) := by
  have hq' : (params "q").getD "" = "" := by
    rcases hq with h | h <;> simp [h]
  constructor
  · unfold netlify_route
    rw [ha]
    simp [hq']
  · unfold server_route
    rw [ha]
    simp [hq']

/-- Witness for C7: a concrete request with `action=search` and no `q`. -/
theorem C7_search_missing_q_witness :
    netlify_route (fun k => if k == "action" then some "search" else none)
      (fun _ => .errorMsg "x") =
      (.errorTop "Missing 'q' parameter for search", []) ∧
    server_route (fun k => if k == "action" then some "search" else none)
      (fun _ => .errorMsg "x") =
      (.errorTop "Missing 'q' parameter for search", []) :=
  C7_search_missing_q _ _ rfl (Or.inl rfl)

/-- C10: in the dev server, when the ytmusicapi import failed at startup
(`YTMUSIC_AVAILABLE = False`, memo still unset), all three adapter
operations return `{"error": "ytmusicapi not available"}` without raising,
with zero construction attempts, and for every possible upstream oracle
(so no network call is consulted). -/
theorem C10_unavailable_error :
    ∀ (ctor : Except String Nat) (up : Upstream) (mood q : String)
      (limit : Nat) (slimit : Int),
      server_fetch_mood_playlists false none ctor up mood limit =
        (.ok (.errorMsg "ytmusicapi not available"), 0) ∧
      server_search_playlists false none ctor up q slimit =
        (.ok (.errorMsg "ytmusicapi not available"), 0) ∧
      server_get_available_moods false none ctor up =
        (.ok (.errorMsg "ytmusicapi not available"), 0) := by
  intro ctor up mood q limit slimit
  exact ⟨rfl, rfl, rfl⟩

/-- C8 counterexample: when the first construction attempt raises, the
memo stays unset and the second call attempts construction again — after
one call one attempt has happened, after two calls two attempts have,
contradicting "at most one construction attempt per process lifetime". -/
theorem C8_retry_counterexample :
    (get_ytmusic_run (fun _ => Except.error "boom") 1 (none, 0)).2 = 1 ∧
    (get_ytmusic_run (fun _ => Except.error "boom") 2 (none, 0)).2 = 2 :=
  ⟨rfl, rfl⟩

/-- C8 amended: `get_ytmusic` constructs only when no handle is memoized;
a successful construction is memoized and every later call returns that
same handle with no further attempt (so at most one *successful*
construction per lifetime); a *failed* attempt is not memoized, so the
next call attempts construction again. -/
theorem C8_memoization_amended :
    (∀ (ctor : Except String Nat) (h : Nat),
      netlify_get_ytmusic (some h) ctor = (.ok h, some h, 0)) ∧
    (∀ h : Nat, netlify_get_ytmusic none (.ok h) = (.ok h, some h, 1)) ∧
    (∀ m : String, netlify_get_ytmusic none (.error m) = (.error m, none, 1)) ∧
    (∀ (f : Nat → Except String Nat) (k h n : Nat),
      get_ytmusic_run f k (some h, n) = (some h, n)) := by
  refine ⟨fun _ _ => rfl, fun _ => rfl, fun _ => rfl, ?_⟩
  intro f k
  induction k with
  | zero => intro h n; rfl
  | succ k ih => intro h n; exact ih h n

/-- A trivial upstream oracle (all calls succeed with empty data). -/
def upstream_trivial : Upstream :=
  { moodCategories := .ok []
    moodPlaylists := fun _ => .ok []
    searchResults := fun _ _ => .ok [] }

/-- C2 counterexample: `get_ytmusic()` is called *before* the try block,
so an exception raised while constructing the client handle on first use
propagates out of the netlify adapter operation instead of being returned
as `{"error": msg}`. -/
theorem C2_ctor_exception_propagates :
    netlify_fetch_mood_playlists none (.error "boom") upstream_trivial
      "party" 10 = .error "boom" ∧
    netlify_search_playlists none (.error "boom") upstream_trivial
      "jazz" 10 = .error "boom" ∧
    netlify_get_available_moods none (.error "boom") upstream_trivial =
      .error "boom" :=
  ⟨rfl, rfl, rfl⟩

/-- C2 amended: once `get_ytmusic` yields a handle (memoized, or freshly
constructed without raising), no netlify adapter operation propagates an
exception — every client-library failure inside the try block is caught,
stringified and returned as `{"error": msg}`. -/
theorem C2_wrapped_errors_amended :
    (∀ (h : Nat) (ctor : Except String Nat) (up : Upstream) (mood : String)
      (limit : Nat),
      (netlify_fetch_mood_playlists (some h) ctor up mood limit).isOk = true) ∧
    (∀ (h : Nat) (up : Upstream) (mood : String) (limit : Nat),
      (netlify_fetch_mood_playlists none (.ok h) up mood limit).isOk = true) ∧
    (∀ (h : Nat) (ctor : Except String Nat) (up : Upstream) (q : String)
      (limit : Int),
      (netlify_search_playlists (some h) ctor up q limit).isOk = true) ∧
    (∀ (h : Nat) (up : Upstream) (q : String) (limit : Int),
      (netlify_search_playlists none (.ok h) up q limit).isOk = true) ∧
    (∀ (h : Nat) (ctor : Except String Nat) (up : Upstream),
      (netlify_get_available_moods (some h) ctor up).isOk = true) ∧
    (∀ (h : Nat) (up : Upstream),
      (netlify_get_available_moods none (.ok h) up).isOk = true) ∧
    (∀ (h : Nat) (ctor : Except String Nat) (m : String)
      (mpl : String → Except String (List PlaylistGroup))
      (sr : String → Int → Except String (List SearchItem))
      (mood : String) (limit : Nat),
      netlify_fetch_mood_playlists (some h) ctor ⟨.error m, mpl, sr⟩ mood limit =
        .ok (.errorMsg m)) ∧
    (∀ (h : Nat) (ctor : Except String Nat)
      (mc : Except String Taxonomy)
      (mpl : String → Except String (List PlaylistGroup)) (m : String)
      (q : String) (limit : Int),
      netlify_search_playlists (some h) ctor ⟨mc, mpl, fun _ _ => .error m⟩
        q limit = .ok (.errorMsg m)) := by
  have hfetch : ∀ (memo : Option Nat) (ctor : Except String Nat)
      (up : Upstream) (mood : String) (limit : Nat) (h : Nat),
      netlify_get_ytmusic memo ctor = (.ok h, some h, 1) ∨
      netlify_get_ytmusic memo ctor = (.ok h, some h, 0) →
      (netlify_fetch_mood_playlists memo ctor up mood limit).isOk = true := by
    intro memo ctor up mood limit h hget
    unfold netlify_fetch_mood_playlists
    rcases hget with hg | hg <;> rw [hg] <;>
      cases netlify_browse_body up mood limit <;> rfl
  refine ⟨?_, ?_, ?_, ?_, ?_, ?_, fun _ _ _ _ _ _ _ => rfl, fun _ _ _ _ _ _ _ => rfl⟩
  · intro h ctor up mood limit
    exact hfetch (some h) ctor up mood limit h (Or.inr rfl)
  · intro h up mood limit
    exact hfetch none (.ok h) up mood limit h (Or.inl rfl)
  · intro h ctor up q limit
    show (match up.searchResults q limit with
      | .error m => Except.ok (ApiValue.errorMsg m)
      | .ok results =>
        Except.ok (ApiValue.playlists (netlify_search_map results))).isOk = true
    cases up.searchResults q limit <;> rfl
  · intro h up q limit
    show (match up.searchResults q limit with
      | .error m => Except.ok (ApiValue.errorMsg m)
      | .ok results =>
        Except.ok (ApiValue.playlists (netlify_search_map results))).isOk = true
    cases up.searchResults q limit <;> rfl
  · intro h ctor up
    show (match up.moodCategories with
      | .error m => Except.ok (ApiValue.errorMsg m)
      | .ok tax => Except.ok (ApiValue.moodsList (moods_flatten tax))).isOk = true
    cases up.moodCategories <;> rfl
  · intro h up
    show (match up.moodCategories with
      | .error m => Except.ok (ApiValue.errorMsg m)
      | .ok tax => Except.ok (ApiValue.moodsList (moods_flatten tax))).isOk = true
    cases up.moodCategories <;> rfl

/-- `charsPrefix n h` is exactly "h starts with n". -/
theorem charsPrefix_iff (n h : List Char) :
    charsPrefix n h = true ↔ ∃ r, h = n ++ r := by
  induction n generalizing h with
  | nil =>
    simp [charsPrefix]
  | cons a as ih =>
    cases h with
    | nil =>
      simp [charsPrefix]
    | cons b bs =>
      simp only [charsPrefix, Bool.and_eq_true, beq_iff_eq, ih bs]
      constructor
      · rintro ⟨rfl, r, rfl⟩
        exact ⟨r, rfl⟩
      · rintro ⟨r, hr⟩
        injection hr with h1 h2
        exact ⟨h1.symm, r, h2⟩

/-- `charsSub n h` is exactly "n occurs contiguously inside h". -/
theorem charsSub_iff (n h : List Char) :
    charsSub n h = true ↔ ∃ x y, h = x ++ n ++ y := by
  induction h with
  | nil =>
    simp only [charsSub, List.isEmpty_iff]
    constructor
    · rintro rfl
      exact ⟨[], [], rfl⟩
    · rintro ⟨x, y, hxy⟩
      rcases List.append_eq_nil.mp (List.append_eq_nil.mp hxy.symm).1 with ⟨-, h2⟩
      exact h2
  | cons b bs ih =>
    simp only [charsSub, Bool.or_eq_true, charsPrefix_iff, ih]
    constructor
    · rintro (⟨r, hr⟩ | ⟨x, y, hxy⟩)
      · exact ⟨[], r, by simpa using hr⟩
      · exact ⟨b :: x, y, by simp [hxy]⟩
    · rintro ⟨x, y, hxy⟩
      cases x with
      | nil =>
        exact Or.inl ⟨y, by simpa using hxy⟩
      | cons c cs =>
        injection hxy with h1 h2
        exact Or.inr ⟨cs, y, by simpa using h2⟩

/-- Python's `in` on strings is contiguous-substring occurrence. -/
theorem pyIn_iff (needle hay : String) :
    pyIn needle hay = true ↔ ∃ x y, hay.data = x ++ needle.data ++ y :=
  charsSub_iff needle.data hay.data

/-- C4 counterexample: with resolved label "chill hits mix" and item title
"Chill", the label contains the title (so the bidirectional test matches,
and the dev server matches), but the serverless test — label contained in
title only — does not match, and its browse loop performs no fetch (the
oracle would have turned any fetch into an error). -/
theorem C4_match_counterexample :
    server_item_matches (pyLower "chill hits mix")
      ⟨some "Chill", some "p"⟩ = true ∧
    netlify_item_matches "chill hits mix" ⟨some "Chill", some "p"⟩ = false ∧
    netlify_browse_body
      ⟨.ok [("Moods", [⟨some "Chill", some "p"⟩])],
       fun _ => .error "fetched", fun _ _ => .error "x"⟩
      "chill hits mix" 10 = .ok [] :=
  ⟨by decide, by decide, rfl⟩

/-- C4 amended: the dev server's match test is the bidirectional
case-insensitive substring test of the spec; the serverless function's
match test is one-directional — the lowercased resolved label must occur
inside the lowercased item title. -/
theorem C4_match_amended (label : String) (i : MoodItem) :
    (server_item_matches (pyLower label) i = true ↔
      ((∃ x y, (pyLower (i.title.getD "")).data =
          x ++ (pyLower label).data ++ y) ∨
       (∃ x y, (pyLower label).data =
          x ++ (pyLower (i.title.getD "")).data ++ y))) ∧
    (netlify_item_matches label i = true ↔
      ∃ x y, (pyLower (i.title.getD "")).data =
        x ++ (pyLower label).data ++ y) := by
  constructor
  · unfold server_item_matches
    rw [Bool.or_eq_true, pyIn_iff, pyIn_iff]
  · unfold netlify_item_matches
    rw [pyIn_iff]

/-- Witness for C4 at concrete strings: "chill" occurs inside the item
title "Chill Hits", so the serverless one-directional test matches. -/
theorem C4_match_amended_witness :
    netlify_item_matches "chill" ⟨some "Chill Hits", some "p"⟩ = true :=
  (C4_match_amended "chill" ⟨some "Chill Hits", some "p"⟩).2.mpr
    ⟨[], " hits".data, rfl⟩

/-! ## Helper lemmas: id validity and collection bounds -/

/-- The dev server's search skip test is the negation of the spec's id
validity predicate. -/
theorem search_skip_eq_not_valid (s : String) :
    (s == "" || pyLower s == "none" || pyLower s == "null") =
      !(validId (some s)) := by
  unfold validId
  cases h1 : s == "" <;> cases h2 : pyLower s == "none" <;>
    cases h3 : pyLower s == "null" <;> simp [h1, h2, h3]

/-- The dev server's search skip test is exactly failure of the validity
predicate. -/
theorem search_skip_pid_eq (pid : Option String) :
    search_skip_pid pid = !(validId pid) := by
  cases pid with
  | none => rfl
  | some s => exact search_skip_eq_not_valid s

/-- The dev server's browse skip test (with its redundant `== "None"`
disjunct) is also exactly failure of the validity predicate. -/
theorem server_skip_pid_eq (pid : Option String) :
    server_skip_pid pid = !(validId pid) := by
  cases pid with
  | none => rfl
  | some s =>
    show (s == "" || s == "None" || pyLower s == "none" ||
      pyLower s == "null") = !(validId (some s))
    by_cases hN : s = "None"
    · subst hN
      decide
    · have hN' : (s == "None") = false := by simp [hN]
      rw [hN',
        (by decide : ∀ a c d : Bool, (a || false || c || d) = (a || c || d))]
      exact search_skip_eq_not_valid s

theorem validId_of_not_server_skip (pid : Option String)
    (hc : ¬ server_skip_pid pid = true) :
    validId (some (pyStr pid)) = true := by
  rw [server_skip_pid_eq] at hc
  cases pid with
  | none => exact absurd rfl hc
  | some s =>
    cases h : validId (some s) with
    | false => rw [h] at hc; simp at hc
    | true => exact h

theorem validId_of_not_search_skip (pid : Option String)
    (hc : ¬ search_skip_pid pid = true) :
    validId (some (pyStr pid)) = true := by
  rw [search_skip_pid_eq] at hc
  cases pid with
  | none => exact absurd rfl hc
  | some s =>
    cases h : validId (some s) with
    | false => rw [h] at hc; simp at hc
    | true => exact h

/-- Every summary the dev server browse collection appends passes the id
validity filter. -/
theorem server_collect_items_valid (limit : Nat) :
    ∀ (ps : List RawPlaylist) (acc : List PlaylistSummary),
      (∀ s ∈ acc, validId s.id = true) →
      ∀ s ∈ server_collect_items limit acc ps, validId s.id = true := by
  intro ps
  induction ps with
  | nil => intro acc hacc; exact hacc
  | cons p rest ih =>
    intro acc hacc
    unfold server_collect_items
    split
    · exact hacc
    · split
      · exact ih acc hacc
      · next hc =>
        apply ih
        intro x hx
        rcases List.mem_append.mp hx with hx | hx
        · exact hacc x hx
        · rw [List.mem_singleton.mp hx]
          exact validId_of_not_server_skip p.playlistId hc

theorem server_collect_groups_valid (limit : Nat) :
    ∀ (gs : List PlaylistGroup) (acc : List PlaylistSummary),
      (∀ s ∈ acc, validId s.id = true) →
      ∀ s ∈ server_collect_groups limit acc gs, validId s.id = true := by
  intro gs
  induction gs with
  | nil => intro acc hacc; exact hacc
  | cons g rest ih =>
    intro acc hacc
    unfold server_collect_groups
    exact ih _ (server_collect_items_valid limit _ acc hacc)

/-- Every summary the dev server search mapping emits passes the id
validity filter. -/
theorem server_search_map_valid :
    ∀ (results : List SearchItem),
      ∀ s ∈ server_search_map results, validId s.id = true := by
  intro results
  induction results with
  | nil => intro s hs; cases hs
  | cons it rest ih =>
    unfold server_search_map
    split
    · split
      · exact ih
      · next hc =>
        intro x hx
        rcases List.mem_cons.mp hx with hx | hx
        · rw [hx]
          exact validId_of_not_search_skip it.playlistId hc
        · exact ih x hx
    · exact ih

/-- Inverting a successful dev server browse: the list is empty or a
collection result. -/
theorem server_browse_fetch_ok (up : Upstream) (limit : Nat)
    (mp : Option String) (l : List PlaylistSummary)
    (hb : server_browse_fetch up limit mp = .ok l) :
    l = [] ∨ ∃ gs, l = server_collect_groups limit [] gs := by
  unfold server_browse_fetch at hb
  split at hb
  · cases hup : up.moodPlaylists (mp.getD "") with
    | error m => rw [hup] at hb; exact Except.noConfusion hb
    | ok gs =>
      rw [hup] at hb
      have hb' : Except.ok (ε := String)
          (server_collect_groups limit [] gs) = .ok l := hb
      injection hb' with hb'
      exact Or.inr ⟨gs, hb'.symm⟩
  · have hb' : Except.ok (ε := String) ([] : List PlaylistSummary) = .ok l := hb
    injection hb' with hb'
    exact Or.inl hb'.symm

theorem server_browse_body_ok (up : Upstream) (mood : String) (limit : Nat)
    (l : List PlaylistSummary) (hb : server_browse_body up mood limit = .ok l) :
    l = [] ∨ ∃ gs, l = server_collect_groups limit [] gs := by
  unfold server_browse_body at hb
  cases hmc : up.moodCategories with
  | error m => rw [hmc] at hb; exact Except.noConfusion hb
  | ok tax =>
    rw [hmc] at hb
    exact server_browse_fetch_ok up limit _ l hb

/-! ## Helper lemmas: length bounds for the browse collections -/

theorem server_collect_items_len (limit : Nat) :
    ∀ (ps : List RawPlaylist) (acc : List PlaylistSummary),
      acc.length ≤ limit → (server_collect_items limit acc ps).length ≤ limit := by
  intro ps
  induction ps with
  | nil => intro acc h; exact h
  | cons p rest ih =>
    intro acc hacc
    unfold server_collect_items
    split
    · exact hacc
    · next hgt =>
      split
      · exact ih acc hacc
      · apply ih
        simp only [List.length_append, List.length_cons, List.length_nil]
        omega

theorem server_collect_groups_len (limit : Nat) :
    ∀ (gs : List PlaylistGroup) (acc : List PlaylistSummary),
      acc.length ≤ limit → (server_collect_groups limit acc gs).length ≤ limit := by
  intro gs
  induction gs with
  | nil => intro acc h; exact h
  | cons g rest ih =>
    intro acc hacc
    unfold server_collect_groups
    exact ih _ (server_collect_items_len limit _ acc hacc)

theorem netlify_collect_items_len (limit : Nat) :
    ∀ (ps : List RawPlaylist) (acc : List PlaylistSummary),
      acc.length ≤ limit → (netlify_collect_items limit acc ps).length ≤ limit := by
  intro ps
  induction ps with
  | nil => intro acc h; exact h
  | cons p rest ih =>
    intro acc hacc
    unfold netlify_collect_items
    split
    · exact hacc
    · next hgt =>
      apply ih
      simp only [List.length_append, List.length_cons, List.length_nil]
      omega

theorem netlify_collect_groups_len (limit : Nat) :
    ∀ (gs : List PlaylistGroup) (acc : List PlaylistSummary),
      acc.length ≤ limit → (netlify_collect_groups limit acc gs).length ≤ limit := by
  intro gs
  induction gs with
  | nil => intro acc h; exact h
  | cons g rest ih =>
    intro acc hacc
    unfold netlify_collect_groups
    exact ih _ (netlify_collect_items_len limit _ acc hacc)

theorem netlify_browse_items_len (up : Upstream) (target : String) (limit : Nat) :
    ∀ (items : List MoodItem) (acc l : List PlaylistSummary),
      acc.length ≤ limit →
      netlify_browse_items up target limit acc items = .ok l →
      l.length ≤ limit := by
  intro items
  induction items with
  | nil =>
    intro acc l hacc hb
    have hb' : Except.ok (ε := String) acc = .ok l := hb
    injection hb' with hb'
    exact hb' ▸ hacc
  | cons i rest ih =>
    intro acc l hacc hb
    unfold netlify_browse_items at hb
    split at hb
    · cases hp : i.params with
      | none => rw [hp] at hb; exact Except.noConfusion hb
      | some ps =>
        rw [hp] at hb
        have hb2 : (match up.moodPlaylists ps with
          | Except.error m => Except.error m
          | Except.ok gs =>
            netlify_browse_items up target limit
              (netlify_collect_groups limit acc gs) rest) = Except.ok l := hb
        cases hup : up.moodPlaylists ps with
        | error m => rw [hup] at hb2; exact Except.noConfusion hb2
        | ok gs =>
          rw [hup] at hb2
          exact ih _ l (netlify_collect_groups_len limit gs acc hacc) hb2
    · exact ih acc l hacc hb

theorem netlify_browse_cats_len (up : Upstream) (target : String) (limit : Nat) :
    ∀ (tax : Taxonomy) (acc l : List PlaylistSummary),
      acc.length ≤ limit →
      netlify_browse_cats up target limit acc tax = .ok l →
      l.length ≤ limit := by
  intro tax
  induction tax with
  | nil =>
    intro acc l hacc hb
    have hb' : Except.ok (ε := String) acc = .ok l := hb
    injection hb' with hb'
    exact hb' ▸ hacc
  | cons c rest ih =>
    obtain ⟨cname, items⟩ := c
    intro acc l hacc hb
    unfold netlify_browse_cats at hb
    cases hbi : netlify_browse_items up target limit acc items with
    | error m => rw [hbi] at hb; exact Except.noConfusion hb
    | ok acc2 =>
      rw [hbi] at hb
      exact ih acc2 l
        (netlify_browse_items_len up target limit items acc acc2 hacc hbi) hb

theorem netlify_browse_body_len (up : Upstream) (mood : String) (limit : Nat)
    (l : List PlaylistSummary) (hb : netlify_browse_body up mood limit = .ok l) :
    l.length ≤ limit := by
  unfold netlify_browse_body at hb
  cases hmc : up.moodCategories with
  | error m => rw [hmc] at hb; exact Except.noConfusion hb
  | ok tax =>
    rw [hmc] at hb
    exact netlify_browse_cats_len up _ limit tax [] l (by simp) hb

/-! ## Helper lemmas: the no-match browse paths -/

theorem firstMatch_none (target : String) (items : List MoodItem)
    (h : ∀ i ∈ items, server_item_matches target i = false) :
    firstMatch target items = none := by
  unfold firstMatch
  rw [List.find?_eq_none]
  intro x hx
  simp [h x hx]

theorem server_match_loop_none (target : String) :
    ∀ (tax : Taxonomy) (acc : Option String),
      (∀ c ∈ tax, ∀ i ∈ c.2, server_item_matches target i = false) →
      server_match_loop target acc tax = acc := by
  intro tax
  induction tax with
  | nil => intro acc _; rfl
  | cons c rest ih =>
    obtain ⟨cname, items⟩ := c
    intro acc h
    unfold server_match_loop
    rw [firstMatch_none target items
      (fun i hi => h (cname, items) (List.mem_cons_self _ _) i hi)]
    exact ih acc (fun c hc i hi => h c (List.mem_cons_of_mem _ hc) i hi)

theorem netlify_browse_items_nomatch (up : Upstream) (target : String)
    (limit : Nat) :
    ∀ (items : List MoodItem) (acc : List PlaylistSummary),
      (∀ i ∈ items, netlify_item_matches target i = false) →
      netlify_browse_items up target limit acc items = .ok acc := by
  intro items
  induction items with
  | nil => intro acc _; rfl
  | cons i rest ih =>
    intro acc h
    unfold netlify_browse_items
    rw [h i (List.mem_cons_self _ _)]
    simp only [Bool.false_eq_true, if_false]
    exact ih acc (fun j hj => h j (List.mem_cons_of_mem _ hj))

theorem netlify_browse_cats_nomatch (up : Upstream) (target : String)
    (limit : Nat) :
    ∀ (tax : Taxonomy) (acc : List PlaylistSummary),
      (∀ c ∈ tax, ∀ i ∈ c.2, netlify_item_matches target i = false) →
      netlify_browse_cats up target limit acc tax = .ok acc := by
  intro tax
  induction tax with
  | nil => intro acc _; rfl
  | cons c rest ih =>
    obtain ⟨cname, items⟩ := c
    intro acc h
    unfold netlify_browse_cats
    rw [netlify_browse_items_nomatch up target limit items acc
      (fun i hi => h (cname, items) (List.mem_cons_self _ _) i hi)]
    exact ih acc (fun c hc i hi => h c (List.mem_cons_of_mem _ hc) i hi)

/-! ## Helper lemmas: search mapping lengths -/

theorem server_search_map_len :
    ∀ results : List SearchItem, (server_search_map results).length =
      (results.filter (fun it =>
        it.resultType == some "playlist" && validId it.playlistId)).length := by
  intro results
  induction results with
  | nil => rfl
  | cons it rest ih =>
    unfold server_search_map
    rw [List.filter_cons]
    cases hr : it.resultType == some "playlist" with
    | false => simp [hr, ih]
    | true =>
      cases hv : validId it.playlistId with
      | false => simp [hr, hv, search_skip_pid_eq, ih]
      | true => simp [hr, hv, search_skip_pid_eq, ih]

theorem netlify_search_map_len :
    ∀ results : List SearchItem, (netlify_search_map results).length =
      (results.filter (fun it => it.resultType == some "playlist")).length := by
  intro results
  induction results with
  | nil => rfl
  | cons it rest ih =>
    unfold netlify_search_map
    rw [List.filter_cons]
    cases hr : it.resultType == some "playlist" with
    | false => simp [hr, ih]
    | true => simp [hr, ih]

/-! ## C1, C3, C5 -/

/-- A search record whose `playlistId` key is missing, and a raw playlist
record with a missing `playlistId`. -/
def c1_bad_item : SearchItem := ⟨some "playlist", none, some "T", none, []⟩

def c1_bad_play : RawPlaylist := ⟨none, some "T", none, []⟩

def c1_up : Upstream :=
  ⟨.ok [("A", [⟨some "Party", some "p"⟩])],
   fun _ => .ok [⟨[c1_bad_play], false, ⟨none, none, none, []⟩⟩],
   fun _ _ => .ok [c1_bad_item]⟩

/-- C1 counterexample: the serverless function has no id filter — a search
record with a missing `playlistId` is mapped to a summary whose `id` is
null (not a non-empty string), and the browse path likewise passes a
missing id through; so the claimed invariant fails for the serverless
handler. -/
theorem C1_netlify_invalid_id_counterexample :
    netlify_search_playlists (some 0) (.ok 0) c1_up "jazz" 10 =
      .ok (.playlists [netlify_mk_search_summary c1_bad_item]) ∧
    (netlify_mk_search_summary c1_bad_item).id = none ∧
    validId (netlify_mk_search_summary c1_bad_item).id = false ∧
    netlify_fetch_mood_playlists (some 0) (.ok 0) c1_up "party" 10 =
      .ok (.playlists [netlify_mk_browse_summary c1_bad_play]) ∧
    (netlify_mk_browse_summary c1_bad_play).id = none :=
  ⟨rfl, rfl, rfl, rfl, rfl⟩

/-- C1 amended: the id invariant holds for the dev server only — every
summary in a successful dev-server browse or search list has a valid id
(non-empty, not case-insensitively "none"/"null"); the serverless
implementation does not validate ids. -/
theorem C1_server_valid_ids_amended :
    (∀ (up : Upstream) (mood : String) (limit : Nat)
      (l : List PlaylistSummary),
      server_browse_body up mood limit = .ok l →
      ∀ s ∈ l, validId s.id = true) ∧
    (∀ results : List SearchItem,
      ∀ s ∈ server_search_map results, validId s.id = true) := by
  constructor
  · intro up mood limit l hb s hs
    rcases server_browse_body_ok up mood limit l hb with rfl | ⟨gs, rfl⟩
    · cases hs
    · exact server_collect_groups_valid limit gs []
        (by intro x hx; cases hx) s hs
  · exact server_search_map_valid

def c1w_up : Upstream :=
  ⟨.ok [("A", [⟨some "Party", some "p"⟩])],
   fun _ => .ok [⟨[⟨some "PL1", some "T", none, []⟩], false,
     ⟨none, none, none, []⟩⟩],
   fun _ _ => .ok []⟩

/-- Witness for C1 on a concrete dev-server browse that returns one
playlist. -/
theorem C1_server_valid_ids_amended_witness :
    validId (server_mk_browse_summary "PL1"
      ⟨some "PL1", some "T", none, []⟩).id = true :=
  C1_server_valid_ids_amended.1 c1w_up "party" 10
    [server_mk_browse_summary "PL1" ⟨some "PL1", some "T", none, []⟩] rfl
    (server_mk_browse_summary "PL1" ⟨some "PL1", some "T", none, []⟩)
    (List.mem_singleton.mpr rfl)

def c3_up : Upstream :=
  ⟨.ok [("A", []), ("B", [⟨some "Party", some "p"⟩])],
   fun _ => .error "fetched", fun _ _ => .error "x"⟩

/-- C3 counterexample: a taxonomy whose first category is empty but whose
second is not, with a mood matching nothing.  The claim requires a fetch
from the first *non-empty* category in both implementations; instead the
dev server's fallback looks only at the first category and fetches
nothing (a fetch would have produced `.error "fetched"`, but the result is
`.ok []`), and the serverless implementation has no fallback at all. -/
theorem C3_fallback_counterexample :
    server_browse_body c3_up "zzz" 10 = .ok [] ∧
    netlify_browse_body c3_up "zzz" 10 = .ok [] :=
  ⟨rfl, rfl⟩

/-- C3 amended: in the dev server, when no item matches, the fallback uses
the first item of the *first* category if that category is non-empty, and
does nothing (returning the empty list) when the first category is empty;
the serverless implementation has no fallback and returns the empty list
whenever no item matches. -/
theorem C3_fallback_amended :
    (∀ (up : Upstream) (mood : String) (limit : Nat) (cname : String)
      (i0 : MoodItem) (items : List MoodItem) (rest : Taxonomy),
      up.moodCategories = .ok ((cname, i0 :: items) :: rest) →
      (∀ c ∈ (cname, i0 :: items) :: rest, ∀ i ∈ c.2,
        server_item_matches (pyLower (moodLookup mood)) i = false) →
      server_browse_body up mood limit = server_browse_fetch up limit i0.params) ∧
    (∀ (up : Upstream) (mood : String) (limit : Nat) (cname : String)
      (rest : Taxonomy),
      up.moodCategories = .ok ((cname, []) :: rest) →
      (∀ c ∈ (cname, ([] : List MoodItem)) :: rest, ∀ i ∈ c.2,
        server_item_matches (pyLower (moodLookup mood)) i = false) →
      server_browse_body up mood limit = .ok []) ∧
    (∀ (up : Upstream) (mood : String) (limit : Nat) (tax : Taxonomy),
      up.moodCategories = .ok tax →
      (∀ c ∈ tax, ∀ i ∈ c.2, netlify_item_matches (moodLookup mood) i = false) →
      netlify_browse_body up mood limit = .ok []) := by
  refine ⟨?_, ?_, ?_⟩
  · intro up mood limit cname i0 items rest hmc hno
    have h1 : server_browse_body up mood limit =
        server_browse_fetch up limit
          (server_fallback ((cname, i0 :: items) :: rest)
            (server_match_loop (pyLower (moodLookup mood)) none
              ((cname, i0 :: items) :: rest))) := by
      unfold server_browse_body
      rw [hmc]
    rw [h1, server_match_loop_none _ _ none hno]
    rfl
  · intro up mood limit cname rest hmc hno
    have h1 : server_browse_body up mood limit =
        server_browse_fetch up limit
          (server_fallback ((cname, []) :: rest)
            (server_match_loop (pyLower (moodLookup mood)) none
              ((cname, []) :: rest))) := by
      unfold server_browse_body
      rw [hmc]
    rw [h1, server_match_loop_none _ _ none hno]
    rfl
  · intro up mood limit tax hmc hno
    have h1 : netlify_browse_body up mood limit =
        netlify_browse_cats up (moodLookup mood) limit [] tax := by
      unfold netlify_browse_body
      rw [hmc]
    rw [h1, netlify_browse_cats_nomatch up _ limit tax [] hno]

def c3w_up : Upstream :=
  ⟨.ok [("A", [⟨some "Rock", some "p1"⟩])],
   fun ps =>
     if ps == "p1" then
       .ok [⟨[⟨some "PL1", some "T", none, []⟩], false,
         ⟨none, none, none, []⟩⟩]
     else .error "wrong",
   fun _ _ => .error "x"⟩

/-- Witness for C3: a mood matching nothing against a taxonomy whose first
category is non-empty — the fallback fetches that category's first item's
params and yields its playlist. -/
theorem C3_fallback_amended_witness :
    server_browse_body c3w_up "zzz" 10 =
      .ok [server_mk_browse_summary "PL1" ⟨some "PL1", some "T", none, []⟩] :=
  (C3_fallback_amended.1 c3w_up "zzz" 10 "A" ⟨some "Rock", some "p1"⟩ [] []
    rfl (by decide)).trans rfl

def c5_item1 : SearchItem := ⟨some "playlist", some "PL1", some "A", none, []⟩

def c5_item2 : SearchItem := ⟨some "playlist", some "PL2", some "B", none, []⟩

def c5_up : Upstream :=
  ⟨.ok [], fun _ => .ok [], fun _ _ => .ok [c5_item1, c5_item2]⟩

/-- C5 counterexample: with effective limit 1, an upstream search yielding
two playlist records produces a two-element result list in both
implementations — the mapped search list is not truncated to the limit. -/
theorem C5_search_not_truncated_counterexample :
    server_search_playlists true (some 0) (.ok 0) c5_up "jazz" 1 =
      (.ok (.playlists [server_mk_search_summary "PL1" c5_item1,
        server_mk_search_summary "PL2" c5_item2]), 0) ∧
    netlify_search_playlists (some 0) (.ok 0) c5_up "jazz" 1 =
      .ok (.playlists [netlify_mk_search_summary c5_item1,
        netlify_mk_search_summary c5_item2]) ∧
    (server_search_map [c5_item1, c5_item2]).length = 2 ∧
    (netlify_search_map [c5_item1, c5_item2]).length = 2 :=
  ⟨rfl, rfl, rfl, rfl⟩

/-- C5 amended: browse results are truncated to the limit in both
implementations, but search results are not — the mapped search list has
exactly one entry per qualifying upstream record, however many there are
(the limit is only forwarded to the upstream call). -/
theorem C5_truncation_amended :
    (∀ (up : Upstream) (mood : String) (limit : Nat)
      (l : List PlaylistSummary),
      server_browse_body up mood limit = .ok l → l.length ≤ limit) ∧
    (∀ (up : Upstream) (mood : String) (limit : Nat)
      (l : List PlaylistSummary),
      netlify_browse_body up mood limit = .ok l → l.length ≤ limit) ∧
    (∀ results : List SearchItem, (server_search_map results).length =
      (results.filter (fun it =>
        it.resultType == some "playlist" && validId it.playlistId)).length) ∧
    (∀ results : List SearchItem, (netlify_search_map results).length =
      (results.filter (fun it => it.resultType == some "playlist")).length) := by
  refine ⟨?_, ?_, server_search_map_len, netlify_search_map_len⟩
  · intro up mood limit l hb
    rcases server_browse_body_ok up mood limit l hb with rfl | ⟨gs, rfl⟩
    · simp
    · exact server_collect_groups_len limit gs [] (by simp)
  · intro up mood limit l hb
    exact netlify_browse_body_len up mood limit l hb

def c5w_up : Upstream :=
  ⟨.ok [("A", [⟨some "Party", some "p"⟩])],
   fun _ => .ok [⟨[⟨some "P1", some "P1", none, []⟩,
     ⟨some "P2", some "P2", none, []⟩, ⟨some "P3", some "P3", none, []⟩],
     false, ⟨none, none, none, []⟩⟩],
   fun _ _ => .ok []⟩

/-- Witness for C5: a browse with limit 2 over three upstream playlists
keeps exactly the first two. -/
theorem C5_truncation_amended_witness :
    server_browse_body c5w_up "party" 2 =
      .ok [server_mk_browse_summary "P1" ⟨some "P1", some "P1", none, []⟩,
        server_mk_browse_summary "P2" ⟨some "P2", some "P2", none, []⟩] ∧
    [server_mk_browse_summary "P1" ⟨some "P1", some "P1", none, []⟩,
      server_mk_browse_summary "P2" ⟨some "P2", some "P2", none, []⟩].length ≤ 2 :=
  ⟨rfl, C5_truncation_amended.1 c5w_up "party" 2 _ rfl⟩

end PlayPose
